import Mathlib

/-!
# Verification of the VDS Platform web client

Shallow embedding of the browser-side dashboard of the VDS ("virtual data
scientist") product, translated from `apps/web/src/app/page.tsx` and
`apps/web/src/lib/api.ts`.  JavaScript numbers are modelled as rationals
(`ℚ`), with `NaN` represented by `Option.none` where it can arise
(`parseFloat`); JSON values by the inductive type `J`; exceptions by
`Except`/`Option`.  React `setState` updates are modelled as pure state
transformers on an explicit `AppState` record, and the network is a
parameter: each handler takes the server's response as an argument and the
calls it would issue are recorded in an effect list.
-/

namespace VDS

/-- A JSON value, as consumed from the backend (`any` in the TypeScript). -/
inductive J where
  | jnull : J
  | jstr : String → J
  | jnum : ℚ → J
  | jbool : Bool → J
  | jarr : List J → J
  | jobj : List (String × J) → J

/-- Message role, from `interface Message` in `page.tsx` (`'user' | 'assistant'`). -/
inductive Role where
  | user : Role
  | assistant : Role
deriving DecidableEq

/-- `interface Message { id; role; content; created_at }` from `page.tsx`. -/
structure Message where
  id : String
  role : Role
  content : String
  created_at : String
deriving DecidableEq

/-- `interface Session { id; status; current_step_index; plan?; final_output? }`
from `page.tsx`.  `current_step_index` is a JavaScript number holding an index,
modelled as `ℤ`; the optional `plan` and `final_output` are raw JSON. -/
structure Session where
  id : String
  status : String
  current_step_index : ℤ
  plan : Option J
  final_output : Option J

/-- The `VDSApp` component state relevant to the chat/session logic:
`useState` hooks `domain`, `autonomy`, `messages`, `session`, `input`,
`loading`, `error` from `page.tsx`. -/
structure AppState where
  domain : String
  autonomy : String
  messages : List Message
  session : Option Session
  input : String
  loading : Bool
  error : Option String

/-- Model of the JavaScript `String.prototype.trim`: remove whitespace from
both ends of the string. -/
def jsTrim (s : String) : String :=
  String.mk (((s.data.dropWhile Char.isWhitespace).reverse.dropWhile Char.isWhitespace).reverse)

/-- Network effects a handler issues, recorded instead of performed. -/
inductive Eff where
  | createSessionCall : (question : String) → (domain : String) →
      (autonomy_level : String) → (connector_ids : List String) → Eff
  | pollStarted : (sessionId : String) → Eff
deriving DecidableEq

/-- The `sendMessage` callback from `page.tsx` (lines 96-134).  `uid`/`aid` are
the two `crypto.randomUUID()` results, `now` the `new Date().toISOString()`
timestamp, and `resp` the settled result of the `createSession` request
(`Except.error e` models a thrown error whose `.message` is `e`, with the
empty string standing for a falsy message).  Returns the new state and the
list of network effects issued. -/
def sendMessage (uid aid now : String) (resp : Except String Session)
    (st : AppState) : AppState × List Eff :=
  if jsTrim st.input = "" ∨ st.loading = true then (st, [])
  else
    let q := jsTrim st.input
    let st := { st with input := "", loading := true, error := none }
    let userMsg : Message := { id := uid, role := Role.user, content := q, created_at := now }
    let st := { st with messages := st.messages ++ [userMsg] }
    match resp with
    | Except.ok s =>
      if s.id ≠ "" then
        let assistantMsg : Message :=
          { id := aid, role := Role.assistant,
            content := "🤖 Analyzing your question...", created_at := now }
        let st := { st with session := some s, messages := st.messages ++ [assistantMsg] }
        (st, [Eff.createSessionCall q st.domain st.autonomy [], Eff.pollStarted s.id])
      else
        (st, [Eff.createSessionCall q st.domain st.autonomy []])
    | Except.error e =>
      ({ st with error := some (if e = "" then "Request failed" else e), loading := false },
       [Eff.createSessionCall q st.domain st.autonomy []])

/-- Whether an effect is a `createSession` request. -/
def Eff.isCreate : Eff → Bool
  | Eff.createSessionCall _ _ _ _ => true
  | _ => false

/-- A concrete idle component state, as after mount: the `useState` initial
values from `page.tsx`. -/
def st0 : AppState :=
  { domain := "revops", autonomy := "semi_auto", messages := [], session := none,
    input := "", loading := false, error := none }

/-- A concrete non-idle starting state with input typed in. -/
def st1 : AppState :=
  { domain := "finance", autonomy := "assist",
    messages := [{ id := "m0", role := Role.user, content := "old", created_at := "t0" }],
    session := none, input := " why? ", loading := false, error := none }

/-- A parsed server-sent event as consumed by the subscription effect in
`page.tsx` (lines 78-94): a `type` discriminant plus the fields the three
handled event kinds read (`step_index`, `content`, `status`,
`final_output`). -/
structure SSEEvent where
  type : String
  step_index : ℤ
  content : String
  status : String
  final_output : Option J

/-- The SSE `onEvent` callback body from the subscription effect in
`page.tsx` (lines 80-92): three sequential `if` tests on `data.type`
updating session, messages and loading.  `freshId` is the
`crypto.randomUUID()` result and `now` the `new Date().toISOString()`
timestamp for a streamed assistant message. -/
def handleEvent (freshId now : String) (d : SSEEvent) (st : AppState) : AppState :=
  let st1 :=
    if d.type = "step_complete" then
      { st with session := st.session.map (fun s => { s with current_step_index := d.step_index }) }
    else st
  let st2 :=
    if d.type = "message" then
      { st1 with messages := st1.messages ++
          [{ id := freshId, role := Role.assistant, content := d.content, created_at := now }] }
    else st1
  if d.type = "status" then
    { st2 with
      session := st2.session.map (fun s =>
        { s with status := d.status, final_output := d.final_output }),
      loading := if d.status = "done" then false else st2.loading }
  else st2

/-- A concrete mid-run state holding a session at step 2. -/
def stS : AppState :=
  { domain := "revops", autonomy := "semi_auto",
    messages := [{ id := "m0", role := Role.user, content := "q", created_at := "t0" }],
    session := some { id := "s1", status := "running", current_step_index := 2,
                      plan := none, final_output := none },
    input := "", loading := true, error := none }

/-- `['done', 'failed'].includes(status)` from the poll callback in
`page.tsx` (line 118). -/
def isTerminal (status : String) : Bool :=
  ["done", "failed"].contains status

/-- App state plus the liveness of the `setInterval` poll started by
`sendMessage` (`active` is true while the interval has not been cleared). -/
structure PollState where
  app : AppState
  active : Bool

/-- One firing of the `setInterval` callback from `sendMessage` in
`page.tsx` (lines 115-128), given the `getSession` response `u` and — when
the status is terminal — the `getSessionMessages` response `msgs`.  A
cleared interval fires no callback, modelled as the identity. -/
def pollStep (u : Session) (msgs : List Message) (ps : PollState) : PollState :=
  if ps.active = false then ps
  else
    let st := { ps.app with session := some u }
    if isTerminal u.status then
      let stDone :=
        { st with
          loading := false,
          messages := st.messages.filter (fun m => decide (m.role = Role.user))
            ++ msgs.filter (fun m => decide (m.role = Role.assistant)) }
      { app := stDone, active := false }
    else { app := st, active := true }

/-- The poll loop after `k` interval ticks, reading the `k`-th tick's
`getSession` and `getSessionMessages` responses from the stream `f`. -/
def pollRun (f : ℕ → Session × List Message) (ps : PollState) : ℕ → PollState
  | 0 => ps
  | Nat.succ k => pollStep (f k).1 (f k).2 (pollRun f ps k)

/-- Number of `getSession` polls actually performed during the first `k`
interval ticks: the interval callback runs exactly at the ticks where the
interval is still set. -/
def pollCount (f : ℕ → Session × List Message) (ps : PollState) : ℕ → ℕ
  | 0 => 0
  | Nat.succ k => pollCount f ps k + (if (pollRun f ps k).active = true then 1 else 0)

/-- A concrete response stream: one `'running'` poll, then `'done'` with one
assistant message from the server. -/
def fDemo : ℕ → Session × List Message :=
  fun k =>
    if k = 0 then
      ({ id := "s1", status := "running", current_step_index := 1, plan := none,
         final_output := none }, [])
    else
      ({ id := "s1", status := "done", current_step_index := 8, plan := none,
         final_output := none },
       [{ id := "sm1", role := Role.assistant, content := "answer", created_at := "t9" }])

/-- One entry of the `AGENT_STEPS` constant in `page.tsx`. -/
structure AgentStep where
  key : String
  label : String
  icon : String

/-- The nine fixed pipeline steps (`AGENT_STEPS` in `page.tsx`, lines 35-45). -/
def AGENT_STEPS : List AgentStep :=
  [{ key := "frame", label := "Problem Framing", icon := "🎯" },
   { key := "connect", label := "Data Connector", icon := "🔌" },
   { key := "map", label := "Semantic Mapping", icon := "🗺️" },
   { key := "quality", label := "Data Quality", icon := "✅" },
   { key := "eda", label := "EDA & Hypotheses", icon := "🔬" },
   { key := "model", label := "Modeling & ML", icon := "🤖" },
   { key := "narrate", label := "Insight Narrative", icon := "📝" },
   { key := "act", label := "Action Plan", icon := "⚡" },
   { key := "govern", label := "Governance Check", icon := "🛡️" }]

/-- The display status the plan stepper computes for step `i` of a session
(`page.tsx`, lines 242-246): `stepStatus` from comparing `i` with
`current_step_index`, overridden to `'failed'` when the session failed at
exactly this step. -/
def stepDisplayStatus (s : Session) (i : ℕ) : String :=
  let stepStatus :=
    if (i : ℤ) < s.current_step_index then "done"
    else if (i : ℤ) = s.current_step_index then "active"
    else "pending"
  if s.status = "failed" ∧ (i : ℤ) = s.current_step_index then "failed" else stepStatus

/-- The list of display statuses the stepper renders for `AGENT_STEPS`. -/
def stepperStatuses (s : Session) : List String :=
  (List.range AGENT_STEPS.length).map (fun i => stepDisplayStatus s i)

/-- A JavaScript value as it can appear in a prediction-row field: absent
(`undef`, also covering `null`), a string, or a number. -/
inductive JSVal where
  | undef : JSVal
  | vstr : String → JSVal
  | vnum : ℚ → JSVal
deriving DecidableEq

/-- JavaScript truthiness for the values `JSVal` models: `undefined` is
falsy, a string is truthy iff non-empty, a number iff non-zero. -/
def truthy : JSVal → Bool
  | JSVal.undef => false
  | JSVal.vstr s => decide (s ≠ "")
  | JSVal.vnum q => decide (q ≠ 0)

/-- The JavaScript `a || b` on `JSVal`. -/
def jsOr (a b : JSVal) : JSVal := if truthy a then a else b

/-- Value of a digit list read left to right. -/
def digitsVal (ds : List ℕ) : ℕ := ds.foldl (fun a d => a * 10 + d) 0

/-- Split a leading run of decimal digits off a character list. -/
def takeDigits : List Char → List ℕ × List Char
  | [] => ([], [])
  | c :: cs =>
    if c.isDigit then
      let r := takeDigits cs
      ((c.toNat - 48) :: r.1, r.2)
    else ([], c :: cs)

/-- `10 ^ e` over `ℚ` for an integer exponent. -/
def pow10 (e : ℤ) : ℚ :=
  match e with
  | Int.ofNat n => 10 ^ n
  | Int.negSucc n => 1 / 10 ^ (n + 1)

/-- Value of an optional exponent suffix (`e`/`E`, optional sign, digits);
an incomplete exponent contributes nothing, as in JavaScript's longest-valid
-prefix rule. -/
def expValue (cs : List Char) : ℤ :=
  let body : List Char → ℤ := fun t =>
    let sg : ℤ := match t with | '-' :: _ => -1 | _ => 1
    let t1 : List Char := match t with | '-' :: u => u | '+' :: u => u | _ => t
    let es := takeDigits t1
    if es.1 = [] then 0 else sg * (digitsVal es.1 : ℤ)
  match cs with
  | 'e' :: t => body t
  | 'E' :: t => body t
  | _ => 0

/-- Model of the JavaScript `parseFloat` on a string: skip leading
whitespace, read an optional sign, digits, an optional fraction and an
optional exponent, returning `none` for `NaN` when no digits are found. -/
def parseFloatStr (s : String) : Option ℚ :=
  let cs := s.data.dropWhile Char.isWhitespace
  let sign : ℚ := match cs with | '-' :: _ => -1 | _ => 1
  let cs1 : List Char := match cs with | '-' :: t => t | '+' :: t => t | _ => cs
  let ip := takeDigits cs1
  let fp : List ℕ × List Char :=
    match ip.2 with
    | '.' :: t => takeDigits t
    | _ => ([], ip.2)
  if ip.1 = [] ∧ fp.1 = [] then none
  else
    let mantissa : ℚ := (digitsVal ip.1 : ℚ) + (digitsVal fp.1 : ℚ) / 10 ^ fp.1.length
    some (sign * mantissa * pow10 (expValue fp.2))

/-- `parseFloat` on a `JSVal`: numbers pass through, strings are parsed,
`undefined` yields `NaN` (`none`). -/
def parseFloatJS : JSVal → Option ℚ
  | JSVal.vnum q => some q
  | JSVal.vstr s => parseFloatStr s
  | JSVal.undef => none

/-- A row of `model.top_predictions` as read by `VizTab` in `page.tsx`
(line 447): the three candidate score fields. -/
structure Prediction where
  score : JSVal
  probability : JSVal
  risk_score : JSVal
deriving DecidableEq

/-- `parseFloat(p.score || p.probability || p.risk_score || '0')` from
`page.tsx`, line 447.  `none` models `NaN`. -/
def scoreOf (p : Prediction) : Option ℚ :=
  parseFloatJS (jsOr p.score (jsOr p.probability (jsOr p.risk_score (JSVal.vstr "0"))))

/-- JavaScript `score > c` where score may be `NaN`: comparisons against
`NaN` are false. -/
def gtQ (x : Option ℚ) (c : ℚ) : Bool :=
  match x with
  | some q => decide (c < q)
  | none => false

/-- `score > 0.7 ? 'high' : score > 0.4 ? 'medium' : 'low'` from `page.tsx`,
line 448. -/
def riskOf (p : Prediction) : String :=
  if gtQ (scoreOf p) (7 / 10) then "high"
  else if gtQ (scoreOf p) (4 / 10) then "medium"
  else "low"

/-- A row whose `score` is a truthy but unparsable string and whose other
score fields are absent. -/
def pAbc : Prediction :=
  { score := JSVal.vstr "abc", probability := JSVal.undef, risk_score := JSVal.undef }

/-- `const V1 = API_BASE + '/api/v1'` from `api.ts`; `base` is the configured
`NEXT_PUBLIC_API_URL` (or its localhost default). -/
def apiV1 (base : String) : String := base ++ "/api/v1"

/-- A request body: JSON (`JSON.stringify`) or multipart form data carrying a
file field (`uploadCSV`). -/
inductive ReqBody where
  | jsonB : J → ReqBody
  | formB : (field : String) → (file : String) → ReqBody

/-- A browser networking primitive the API client can invoke. -/
inductive Prim where
  | fetchP : (url : String) → (method : String) → (body : Option ReqBody) → Prim
  | eventSourceP : (url : String) → Prim

/-- An API-client request function: the primitives it invokes and the
transformation it applies to the JSON-parsed response body (`r.json()`). -/
structure ApiFn where
  prims : List Prim
  post : J → J

/-- The `createSession` payload type from `api.ts`. -/
structure CreateSessionPayload where
  question : String
  domain : String
  autonomy_level : String
  connector_ids : Option (List String)

/-- `JSON.stringify` of the `createSession` payload; an absent optional
`connector_ids` field is omitted. -/
def stringifySessionPayload (p : CreateSessionPayload) : J :=
  J.jobj ([("question", J.jstr p.question), ("domain", J.jstr p.domain),
           ("autonomy_level", J.jstr p.autonomy_level)]
    ++ (match p.connector_ids with
        | some l => [("connector_ids", J.jarr (l.map J.jstr))]
        | none => []))

/-- `getDemoToken` from `api.ts`. -/
def getDemoToken (base : String) : ApiFn :=
  { prims := [Prim.fetchP (apiV1 base ++ "/auth/demo-token") "POST" none], post := fun j => j }

/-- `createSession` from `api.ts`. -/
def createSession (base : String) (payload : CreateSessionPayload) : ApiFn :=
  { prims := [Prim.fetchP (apiV1 base ++ "/sessions") "POST"
      (some (ReqBody.jsonB (stringifySessionPayload payload)))],
    post := fun j => j }

/-- `getSession` from `api.ts`. -/
def getSession (base sessionId : String) : ApiFn :=
  { prims := [Prim.fetchP (apiV1 base ++ ("/sessions/" ++ sessionId)) "GET" none],
    post := fun j => j }

/-- `getSessionMessages` from `api.ts`. -/
def getSessionMessages (base sessionId : String) : ApiFn :=
  { prims := [Prim.fetchP (apiV1 base ++ ("/sessions/" ++ sessionId ++ "/messages")) "GET" none],
    post := fun j => j }

/-- `getSessionArtifacts` from `api.ts`. -/
def getSessionArtifacts (base sessionId : String) : ApiFn :=
  { prims := [Prim.fetchP (apiV1 base ++ ("/sessions/" ++ sessionId ++ "/artifacts")) "GET" none],
    post := fun j => j }

/-- `approveCheckpoint` from `api.ts`. -/
def approveCheckpoint (base sessionId stepId : String) : ApiFn :=
  { prims := [Prim.fetchP
      (apiV1 base ++ ("/sessions/" ++ sessionId ++ "/approvals/" ++ stepId)) "POST"
      (some (ReqBody.jsonB (J.jobj [("action", J.jstr "approve")])))],
    post := fun j => j }

/-- The networking primitive of `subscribeToSession` from `api.ts`: a single
`EventSource` on the session's stream endpoint. -/
def subscribeToSession (base sessionId : String) : List Prim :=
  [Prim.eventSourceP (apiV1 base ++ ("/sessions/" ++ sessionId ++ "/stream"))]

/-- `listConnectors` from `api.ts`. -/
def listConnectors (base : String) : ApiFn :=
  { prims := [Prim.fetchP (apiV1 base ++ "/connectors") "GET" none], post := fun j => j }

/-- `createConnector` from `api.ts`. -/
def createConnector (base : String) (payload : J) : ApiFn :=
  { prims := [Prim.fetchP (apiV1 base ++ "/connectors") "POST"
      (some (ReqBody.jsonB payload))],
    post := fun j => j }

/-- `testConnector` from `api.ts`. -/
def testConnector (base connectorId : String) : ApiFn :=
  { prims := [Prim.fetchP (apiV1 base ++ ("/connectors/" ++ connectorId ++ "/test")) "POST" none],
    post := fun j => j }

/-- `syncConnector` from `api.ts`. -/
def syncConnector (base connectorId : String) : ApiFn :=
  { prims := [Prim.fetchP (apiV1 base ++ ("/connectors/" ++ connectorId ++ "/sync")) "POST" none],
    post := fun j => j }

/-- `getConnectorCatalog` from `api.ts`. -/
def getConnectorCatalog (base : String) : ApiFn :=
  { prims := [Prim.fetchP (apiV1 base ++ "/connectors/catalog") "GET" none], post := fun j => j }

/-- `uploadCSV` from `api.ts`: a form-data POST of the given file. -/
def uploadCSV (base file : String) : ApiFn :=
  { prims := [Prim.fetchP (apiV1 base ++ "/uploads/csv") "POST"
      (some (ReqBody.formB "file" file))],
    post := fun j => j }

/-- `getConnectorSample` from `api.ts`. -/
def getConnectorSample (base connectorId : String) (limit : ℕ) : ApiFn :=
  { prims := [Prim.fetchP
      (apiV1 base ++ ("/connectors/" ++ connectorId ++ "/sample?limit=" ++ toString limit))
      "GET" none],
    post := fun j => j }

/-- `listEntities` from `api.ts`. -/
def listEntities (base : String) : ApiFn :=
  { prims := [Prim.fetchP (apiV1 base ++ "/semantic/entities") "GET" none], post := fun j => j }

/-- `listRelationships` from `api.ts`. -/
def listRelationships (base : String) : ApiFn :=
  { prims := [Prim.fetchP (apiV1 base ++ "/semantic/relationships") "GET" none],
    post := fun j => j }

/-- `discoverOntology` from `api.ts`. -/
def discoverOntology (base connectorId industry : String) : ApiFn :=
  { prims := [Prim.fetchP (apiV1 base ++ "/semantic/discover") "POST"
      (some (ReqBody.jsonB (J.jobj [("connector_id", J.jstr connectorId),
                                    ("industry", J.jstr industry)])))],
    post := fun j => j }

/-- `certifyEntity` from `api.ts`. -/
def certifyEntity (base entityId : String) : ApiFn :=
  { prims := [Prim.fetchP (apiV1 base ++ ("/semantic/entities/" ++ entityId ++ "/certify"))
      "POST" none],
    post := fun j => j }

/-- `listMetrics` from `api.ts`. -/
def listMetrics (base : String) : ApiFn :=
  { prims := [Prim.fetchP (apiV1 base ++ "/semantic/metrics") "GET" none], post := fun j => j }

/-- `installDomainPack` from `api.ts`. -/
def installDomainPack (base domain : String) : ApiFn :=
  { prims := [Prim.fetchP (apiV1 base ++ ("/semantic/domains/" ++ domain ++ "/install"))
      "POST" none],
    post := fun j => j }

/-- `listModels` from `api.ts`. -/
def listModels (base : String) : ApiFn :=
  { prims := [Prim.fetchP (apiV1 base ++ "/modeling/registry") "GET" none], post := fun j => j }

/-- `listWorkflows` from `api.ts`. -/
def listWorkflows (base : String) : ApiFn :=
  { prims := [Prim.fetchP (apiV1 base ++ "/agents") "GET" none], post := fun j => j }

/-- `listTemplates` from `api.ts`. -/
def listTemplates (base : String) : ApiFn :=
  { prims := [Prim.fetchP (apiV1 base ++ "/agents/templates") "GET" none], post := fun j => j }

/-- `createWorkflow` from `api.ts`. -/
def createWorkflow (base : String) (payload : J) : ApiFn :=
  { prims := [Prim.fetchP (apiV1 base ++ "/agents") "POST" (some (ReqBody.jsonB payload))],
    post := fun j => j }

/-- `getAuditLog` from `api.ts`. -/
def getAuditLog (base : String) : ApiFn :=
  { prims := [Prim.fetchP (apiV1 base ++ "/governance/audit") "GET" none], post := fun j => j }

/-- `listPolicies` from `api.ts`. -/
def listPolicies (base : String) : ApiFn :=
  { prims := [Prim.fetchP (apiV1 base ++ "/governance/policies") "GET" none],
    post := fun j => j }

/-- `healthCheck` from `api.ts`: the one endpoint directly under the base. -/
def healthCheck (base : String) : ApiFn :=
  { prims := [Prim.fetchP (base ++ "/health") "GET" none], post := fun j => j }

/-- An API function performs exactly one fetch, to a URL under the configured
base, and returns the JSON-parsed response body untransformed. -/
def SingleFetchUnder (base : String) (f : ApiFn) : Prop :=
  (∃ url method body, f.prims = [Prim.fetchP url method body] ∧ ∃ rest, url = base ++ rest)
  ∧ f.post = fun j => j

/-- The open/closed state of the `EventSource` in `subscribeToSession`. -/
structure EventSourceState where
  closed : Bool

/-- The `onmessage` handler of `subscribeToSession` from `api.ts` (lines
55-57): `JSON.parse` (modelled by the `parse` argument, `Except.error`
standing for a thrown `SyntaxError`) guarded by try/catch.  The result is
the list of arguments `onEvent` is invoked with; `Except.ok` of that list
records that no exception escapes the handler. -/
def subscribeOnMessage (parse : String → Except String J) (data : String) :
    Except String (List J) :=
  match parse data with
  | Except.ok j => Except.ok [j]
  | Except.error _ => Except.ok [J.jobj [("raw", J.jstr data)]]

/-- The `onerror` handler of `subscribeToSession` from `api.ts` (line 58):
close the `EventSource`. -/
def subscribeOnError (es : EventSourceState) : EventSourceState :=
  { es with closed := true }

/-- C10: if the chat input is empty or whitespace-only after trimming, or a
request is already in flight (`loading` is true), `sendMessage` performs no
network call and leaves all state unchanged. -/
theorem sendMessage_guard_noop (uid aid now : String) (resp : Except String Session)
    (st : AppState) (h : jsTrim st.input = "" ∨ st.loading = true) :
    sendMessage uid aid now resp st = (st, []) := by
  unfold sendMessage
  exact if_pos h

/-- Witness for C10 at the initial state (empty input, not loading). -/
theorem sendMessage_guard_noop_witness :
    (jsTrim st0.input = "" ∨ st0.loading = true) ∧
      sendMessage "u" "a" "t" (Except.error "boom") st0 = (st0, []) :=
  ⟨Or.inl (by decide),
   sendMessage_guard_noop "u" "a" "t" (Except.error "boom") st0 (Or.inl (by decide))⟩

/-- C6: a `sendMessage` invocation with non-whitespace input and `loading`
false appends exactly one user message containing the trimmed input, issues
exactly one `createSession` call carrying that question, the current domain
and autonomy level and an empty `connector_ids` list; when the created
session has an id it starts polling `getSession` for it, and when
`createSession` throws the error message (or the fallback) is stored and
`loading` is reset to false. -/
theorem sendMessage_creates_session (uid aid now : String) (resp : Except String Session)
    (st : AppState) (h1 : jsTrim st.input ≠ "") (h2 : st.loading = false) :
    ((sendMessage uid aid now resp st).2.filter Eff.isCreate
        = [Eff.createSessionCall (jsTrim st.input) st.domain st.autonomy []])
    ∧ ((sendMessage uid aid now resp st).1.messages.filter (fun m => decide (m.role = Role.user))
        = st.messages.filter (fun m => decide (m.role = Role.user))
          ++ [{ id := uid, role := Role.user, content := jsTrim st.input, created_at := now }])
    ∧ (match resp with
       | Except.ok s => s.id ≠ "" → Eff.pollStarted s.id ∈ (sendMessage uid aid now resp st).2
       | Except.error e =>
           (sendMessage uid aid now resp st).1.error
               = some (if e = "" then "Request failed" else e)
           ∧ (sendMessage uid aid now resp st).1.loading = false) := by
  have hcond : ¬(jsTrim st.input = "" ∨ st.loading = true) := by
    simp [h1, h2]
  cases resp with
  | ok s =>
    by_cases hid : s.id = ""
    · simp [sendMessage, hcond, hid, Eff.isCreate, List.filter_append]
    · simp [sendMessage, hcond, hid, Eff.isCreate, List.filter_append]
  | error e =>
    simp [sendMessage, hcond, Eff.isCreate, List.filter_append]

/-- Witness for C6: a concrete send from `st1` with a successful
`createSession` response carrying session id `"s1"`. -/
theorem sendMessage_creates_session_witness :
    (jsTrim st1.input ≠ "" ∧ st1.loading = false)
    ∧ ((sendMessage "u1" "a1" "t1"
          (Except.ok { id := "s1", status := "planning", current_step_index := 0,
                       plan := none, final_output := none }) st1).2.filter Eff.isCreate
        = [Eff.createSessionCall (jsTrim st1.input) st1.domain st1.autonomy []])
    ∧ (((sendMessage "u1" "a1" "t1"
          (Except.ok { id := "s1", status := "planning", current_step_index := 0,
                       plan := none, final_output := none }) st1).1.messages.filter
            (fun m => decide (m.role = Role.user)))
        = st1.messages.filter (fun m => decide (m.role = Role.user))
          ++ [{ id := "u1", role := Role.user, content := jsTrim st1.input, created_at := "t1" }])
    ∧ (({ id := "s1", status := "planning", current_step_index := 0,
          plan := none, final_output := none } : Session).id ≠ "" →
        Eff.pollStarted "s1" ∈ (sendMessage "u1" "a1" "t1"
          (Except.ok { id := "s1", status := "planning", current_step_index := 0,
                       plan := none, final_output := none }) st1).2) :=
  ⟨⟨by decide, by decide⟩,
   sendMessage_creates_session "u1" "a1" "t1"
     (Except.ok { id := "s1", status := "planning", current_step_index := 0,
                  plan := none, final_output := none }) st1 (by decide) (by decide)⟩

/-- C2: a streamed event whose `type` is `"message"` appends exactly one new
assistant message whose content is the event's `content` field to the end of
the local history, leaving every existing message unchanged in place. -/
theorem sse_message_appends_one (freshId now : String) (d : SSEEvent) (st : AppState)
    (h : d.type = "message") :
    (handleEvent freshId now d st).messages
        = st.messages ++ [{ id := freshId, role := Role.assistant,
                            content := d.content, created_at := now }]
    ∧ (handleEvent freshId now d st).messages.take st.messages.length = st.messages := by
  have h1 : ¬d.type = "step_complete" := by rw [h]; decide
  have h2 : ¬d.type = "status" := by rw [h]; decide
  refine ⟨by simp [handleEvent, h, h1, h2], ?_⟩
  simp [handleEvent, h, h1, h2, List.take_left]

/-- Witness for C2: a `"message"` event appended to the history of `st1`. -/
theorem sse_message_appends_one_witness :
    (SSEEvent.type { type := "message", step_index := 0, content := "hi",
                     status := "", final_output := none } = "message")
    ∧ ((handleEvent "f1" "t2" { type := "message", step_index := 0, content := "hi",
                                status := "", final_output := none } st1).messages
        = st1.messages ++ [{ id := "f1", role := Role.assistant,
                             content := "hi", created_at := "t2" }]
    ∧ (handleEvent "f1" "t2" { type := "message", step_index := 0, content := "hi",
                               status := "", final_output := none } st1).messages.take
          st1.messages.length = st1.messages) :=
  ⟨rfl,
   sse_message_appends_one "f1" "t2"
     { type := "message", step_index := 0, content := "hi", status := "", final_output := none }
     st1 rfl⟩

/-- C7: a streamed `"step_complete"` event only moves the session's
`current_step_index` to the event's `step_index`; the session's `id`,
`status`, `plan` and `final_output`, the message history and all other
component state are unchanged, and with no session set the event changes
nothing. -/
theorem sse_step_complete_frame (freshId now : String) (d : SSEEvent) (st : AppState)
    (h : d.type = "step_complete") :
    (match st.session with
     | none => handleEvent freshId now d st = st
     | some s =>
         (handleEvent freshId now d st).session
             = some { id := s.id, status := s.status, current_step_index := d.step_index,
                      plan := s.plan, final_output := s.final_output }
         ∧ (handleEvent freshId now d st).messages = st.messages
         ∧ (handleEvent freshId now d st).loading = st.loading
         ∧ (handleEvent freshId now d st).error = st.error
         ∧ (handleEvent freshId now d st).input = st.input
         ∧ (handleEvent freshId now d st).domain = st.domain
         ∧ (handleEvent freshId now d st).autonomy = st.autonomy) := by
  have h1 : ¬d.type = "message" := by rw [h]; decide
  have h2 : ¬d.type = "status" := by rw [h]; decide
  obtain ⟨dom, auto, msgs, sess, inp, ld, err⟩ := st
  cases sess with
  | none => simp [handleEvent, h, h1, h2]
  | some s => simp [handleEvent, h, h1, h2]

/-- Witness for C7: a `"step_complete"` event with `step_index` 3 against
`stS`, whose session is at step 2. -/
theorem sse_step_complete_frame_witness :
    (SSEEvent.type { type := "step_complete", step_index := 3, content := "",
                     status := "", final_output := none } = "step_complete")
    ∧ ((handleEvent "f1" "t2" { type := "step_complete", step_index := 3, content := "",
                                status := "", final_output := none } stS).session
         = some { id := "s1", status := "running", current_step_index := 3,
                  plan := none, final_output := none }
      ∧ (handleEvent "f1" "t2" { type := "step_complete", step_index := 3, content := "",
                                 status := "", final_output := none } stS).messages = stS.messages
      ∧ (handleEvent "f1" "t2" { type := "step_complete", step_index := 3, content := "",
                                 status := "", final_output := none } stS).loading = stS.loading
      ∧ (handleEvent "f1" "t2" { type := "step_complete", step_index := 3, content := "",
                                 status := "", final_output := none } stS).error = stS.error
      ∧ (handleEvent "f1" "t2" { type := "step_complete", step_index := 3, content := "",
                                 status := "", final_output := none } stS).input = stS.input
      ∧ (handleEvent "f1" "t2" { type := "step_complete", step_index := 3, content := "",
                                 status := "", final_output := none } stS).domain = stS.domain
      ∧ (handleEvent "f1" "t2" { type := "step_complete", step_index := 3, content := "",
                                 status := "", final_output := none } stS).autonomy = stS.autonomy) :=
  ⟨rfl,
   sse_step_complete_frame "f1" "t2"
     { type := "step_complete", step_index := 3, content := "", status := "", final_output := none }
     stS rfl⟩

lemma pollRun_active_of_le (f : ℕ → Session × List Message) (ps : PollState) (T : ℕ)
    (h0 : ps.active = true)
    (hpre : ∀ j, j < T → isTerminal (f j).1.status = false) :
    ∀ k, k ≤ T → (pollRun f ps k).active = true := by
  intro k
  induction k with
  | zero => intro _; exact h0
  | succ n ih =>
    intro hle
    have hn : n ≤ T := Nat.le_of_succ_le hle
    have hact := ih hn
    have hnt : isTerminal (f n).1.status = false := hpre n (Nat.lt_of_succ_le hle)
    show (pollStep (f n).1 (f n).2 (pollRun f ps n)).active = true
    unfold pollStep
    rw [hact]
    simp [hnt]

lemma pollStep_inactive (u : Session) (msgs : List Message) (ps : PollState)
    (h : ps.active = false) : pollStep u msgs ps = ps := by
  unfold pollStep
  rw [h]
  simp

/-- C1: starting from a live interval, the poll loop keeps polling
`getSession` while every fetched status is non-terminal; at the first tick
`T` whose fetched status is `'done'` or `'failed'` the interval is cleared
and `loading` is set to false, and from then on the state never changes and
the number of polls performed stays at `T + 1` — no further polls of the
session occur. -/
theorem poll_loop_stops_at_terminal (f : ℕ → Session × List Message) (ps : PollState) (T : ℕ)
    (h0 : ps.active = true)
    (hpre : ∀ j, j < T → isTerminal (f j).1.status = false)
    (hT : isTerminal (f T).1.status = true) :
    (∀ k, k ≤ T → (pollRun f ps k).active = true)
    ∧ ((pollRun f ps (T + 1)).active = false ∧ (pollRun f ps (T + 1)).app.loading = false)
    ∧ (∀ m, pollRun f ps (T + 1 + m) = pollRun f ps (T + 1))
    ∧ (∀ m, pollCount f ps (T + 1 + m) = T + 1) := by
  have hact := pollRun_active_of_le f ps T h0 hpre
  have hT1 : pollRun f ps (T + 1) = pollStep (f T).1 (f T).2 (pollRun f ps T) := rfl
  have hstop : (pollRun f ps (T + 1)).active = false
      ∧ (pollRun f ps (T + 1)).app.loading = false := by
    rw [hT1]
    unfold pollStep
    rw [hact T (Nat.le_refl T)]
    simp [hT]
  have hfrozen : ∀ m, pollRun f ps (T + 1 + m) = pollRun f ps (T + 1) := by
    intro m
    induction m with
    | zero => rfl
    | succ n ih =>
      have : T + 1 + (n + 1) = (T + 1 + n) + 1 := rfl
      rw [this]
      show pollStep (f (T + 1 + n)).1 (f (T + 1 + n)).2 (pollRun f ps (T + 1 + n))
          = pollRun f ps (T + 1)
      rw [ih]
      exact pollStep_inactive _ _ _ hstop.1
  have hcountUpTo : ∀ k, k ≤ T + 1 → pollCount f ps k = k := by
    intro k
    induction k with
    | zero => intro _; rfl
    | succ n ih =>
      intro hle
      have hn : n ≤ T := Nat.lt_succ_iff.mp hle
      show pollCount f ps n + (if (pollRun f ps n).active = true then 1 else 0) = n + 1
      rw [ih (Nat.le_succ_of_le hn), hact n hn]
      simp
  refine ⟨hact, hstop, hfrozen, ?_⟩
  intro m
  induction m with
  | zero => exact hcountUpTo (T + 1) (Nat.le_refl _)
  | succ n ih =>
    have : T + 1 + (n + 1) = (T + 1 + n) + 1 := rfl
    rw [this]
    show pollCount f ps (T + 1 + n) + (if (pollRun f ps (T + 1 + n)).active = true then 1 else 0)
        = T + 1
    rw [ih, hfrozen n, hstop.1]
    simp

/-- Witness for C1 on the stream `fDemo`, terminal at tick `T = 1`, started
from `stS` with a live interval. -/
theorem poll_loop_stops_at_terminal_witness :
    ((⟨stS, true⟩ : PollState).active = true
      ∧ (∀ j, j < 1 → isTerminal (fDemo j).1.status = false)
      ∧ isTerminal (fDemo 1).1.status = true)
    ∧ ((∀ k, k ≤ 1 → (pollRun fDemo ⟨stS, true⟩ k).active = true)
      ∧ ((pollRun fDemo ⟨stS, true⟩ (1 + 1)).active = false
        ∧ (pollRun fDemo ⟨stS, true⟩ (1 + 1)).app.loading = false)
      ∧ (∀ m, pollRun fDemo ⟨stS, true⟩ (1 + 1 + m) = pollRun fDemo ⟨stS, true⟩ (1 + 1))
      ∧ (∀ m, pollCount fDemo ⟨stS, true⟩ (1 + 1 + m) = 1 + 1)) :=
  ⟨⟨rfl, by decide, by decide⟩,
   poll_loop_stops_at_terminal fDemo ⟨stS, true⟩ 1 rfl (by decide) (by decide)⟩

/-- C3: when a poll fetches a terminal status, the message history is rebuilt
as exactly the locally held `'user'` messages, in order, followed by exactly
the `'assistant'` messages of the `getSessionMessages` response; any locally
held assistant message — in particular the optimistic placeholder — survives
only if the server returned it. -/
theorem poll_terminal_rebuilds_messages (u : Session) (msgs : List Message) (ps : PollState)
    (hact : ps.active = true) (hterm : isTerminal u.status = true) :
    (pollStep u msgs ps).app.messages
        = ps.app.messages.filter (fun m => decide (m.role = Role.user))
          ++ msgs.filter (fun m => decide (m.role = Role.assistant))
    ∧ (∀ m, m ∈ ps.app.messages → m.role = Role.assistant →
        m ∈ (pollStep u msgs ps).app.messages → m ∈ msgs) := by
  have hmsgs : (pollStep u msgs ps).app.messages
      = ps.app.messages.filter (fun m => decide (m.role = Role.user))
        ++ msgs.filter (fun m => decide (m.role = Role.assistant)) := by
    unfold pollStep
    rw [hact]
    simp [hterm]
  refine ⟨hmsgs, ?_⟩
  intro m _ hrole hmem
  rw [hmsgs] at hmem
  rcases List.mem_append.mp hmem with hl | hr
  · have := (List.mem_filter.mp hl).2
    rw [hrole] at this
    simp at this
  · exact (List.mem_filter.mp hr).1

/-- Witness for C3: a terminal `'done'` poll against `stS` (one local user
message, none assistant) with a one-assistant-message server response. -/
theorem poll_terminal_rebuilds_messages_witness :
    ((⟨stS, true⟩ : PollState).active = true ∧ isTerminal (fDemo 1).1.status = true)
    ∧ ((pollStep (fDemo 1).1 (fDemo 1).2 ⟨stS, true⟩).app.messages
        = stS.messages.filter (fun m => decide (m.role = Role.user))
          ++ (fDemo 1).2.filter (fun m => decide (m.role = Role.assistant))
    ∧ (∀ m, m ∈ stS.messages → m.role = Role.assistant →
        m ∈ (pollStep (fDemo 1).1 (fDemo 1).2 ⟨stS, true⟩).app.messages → m ∈ (fDemo 1).2)) :=
  ⟨⟨rfl, by decide⟩,
   poll_terminal_rebuilds_messages (fDemo 1).1 (fDemo 1).2 ⟨stS, true⟩ rfl (by decide)⟩

/-- C8: for each of the nine pipeline steps the stepper assigns exactly one
display status: `'failed'` exactly when the session status is `'failed'` and
`i` is the current step; otherwise `'done'` iff `i` is before the current
step, `'active'` iff `i` is the current step, and `'pending'` iff `i` is
after it. -/
theorem stepper_status_classification (s : Session) (i : ℕ) (h : i < AGENT_STEPS.length) :
    ((stepperStatuses s).getD i "" = "failed"
        ↔ (s.status = "failed" ∧ (i : ℤ) = s.current_step_index))
    ∧ (¬(s.status = "failed" ∧ (i : ℤ) = s.current_step_index) →
        (((stepperStatuses s).getD i "" = "done" ↔ (i : ℤ) < s.current_step_index)
        ∧ ((stepperStatuses s).getD i "" = "active" ↔ (i : ℤ) = s.current_step_index)
        ∧ ((stepperStatuses s).getD i "" = "pending" ↔ s.current_step_index < (i : ℤ)))) := by
  have hval : (stepperStatuses s).getD i "" = stepDisplayStatus s i := by
    simp [stepperStatuses, List.getD_eq_getElem?_getD, List.getElem?_map, List.getElem?_range, h]
  rw [hval]
  unfold stepDisplayStatus
  by_cases hf : s.status = "failed" ∧ (i : ℤ) = s.current_step_index
  · rw [if_pos hf]
    exact ⟨⟨fun _ => hf, fun _ => rfl⟩, fun hc => absurd hf hc⟩
  · rw [if_neg hf]
    refine ⟨⟨fun he => ?_, fun hff => absurd hff hf⟩, fun _ => ?_⟩
    · exfalso
      revert he
      split_ifs <;> simp
    · split_ifs with h1 h2 <;> simp <;> omega

/-- Witness for C8: step `i = 1` of a failed session stuck at step 1. -/
theorem stepper_status_classification_witness :
    (1 < AGENT_STEPS.length)
    ∧ (((stepperStatuses { id := "s1", status := "failed", current_step_index := 1,
                           plan := none, final_output := none }).getD 1 "" = "failed"
        ↔ (("failed" : String) = "failed" ∧ ((1 : ℕ) : ℤ) = 1))
    ∧ (¬(("failed" : String) = "failed" ∧ ((1 : ℕ) : ℤ) = 1) →
        (((stepperStatuses { id := "s1", status := "failed", current_step_index := 1,
                             plan := none, final_output := none }).getD 1 "" = "done"
            ↔ ((1 : ℕ) : ℤ) < 1)
        ∧ ((stepperStatuses { id := "s1", status := "failed", current_step_index := 1,
                              plan := none, final_output := none }).getD 1 "" = "active"
            ↔ ((1 : ℕ) : ℤ) = 1)
        ∧ ((stepperStatuses { id := "s1", status := "failed", current_step_index := 1,
                              plan := none, final_output := none }).getD 1 "" = "pending"
            ↔ 1 < ((1 : ℕ) : ℤ))))) :=
  ⟨by decide,
   stepper_status_classification
     { id := "s1", status := "failed", current_step_index := 1, plan := none, final_output := none }
     1 (by decide)⟩

/-- Counterexample to C9 as stated: on the row `pAbc`, none of the three
score fields parses as a number, yet the parsed score is `NaN` (not the
claimed default `0`) because the truthy string `"abc"` short-circuits the
`||` chain before the `'0'` fallback; the row is still labeled `'low'`. -/
theorem risk_default_zero_cex :
    parseFloatJS pAbc.score = none
    ∧ parseFloatJS pAbc.probability = none
    ∧ parseFloatJS pAbc.risk_score = none
    ∧ ¬scoreOf pAbc = some 0
    ∧ riskOf pAbc = "low" := by
  decide

lemma scoreOf_of_unparsable (p : Prediction)
    (h1 : parseFloatJS p.score = none) (h2 : parseFloatJS p.probability = none)
    (h3 : parseFloatJS p.risk_score = none) :
    scoreOf p = none ∨ scoreOf p = some 0 := by
  unfold scoreOf jsOr
  by_cases t1 : truthy p.score = true
  · rw [if_pos t1]
    exact Or.inl h1
  · rw [if_neg t1]
    by_cases t2 : truthy p.probability = true
    · rw [if_pos t2]
      exact Or.inl h2
    · rw [if_neg t2]
      by_cases t3 : truthy p.risk_score = true
      · rw [if_pos t3]
        exact Or.inl h3
      · rw [if_neg t3]
        refine Or.inr ?_
        have hw : '0'.isWhitespace = false := by decide
        have hd : '0'.isDigit = true := by decide
        simp [parseFloatJS, parseFloatStr, List.dropWhile, takeDigits, digitsVal, expValue,
          pow10, hw, hd]

/-- C9 (amended): each row's risk label is a total function of its parsed
score: `'high'` iff the score parses to `s > 0.7`, `'medium'` iff it parses
to `0.4 < s ≤ 0.7`, `'low'` otherwise; when none of the three fields parses
as a number the score is `NaN` — or `0` when all three are falsy and the
`'0'` fallback applies — and the row is labeled `'low'`, so every row gets
exactly one label. -/
theorem risk_label_classification (p : Prediction) :
    (riskOf p = "high" ↔ ∃ q, scoreOf p = some q ∧ (7 : ℚ) / 10 < q)
    ∧ (riskOf p = "medium" ↔ ∃ q, scoreOf p = some q ∧ (4 : ℚ) / 10 < q ∧ q ≤ 7 / 10)
    ∧ (riskOf p = "low" ↔ ∀ q, scoreOf p = some q → q ≤ 4 / 10)
    ∧ (riskOf p = "high" ∨ riskOf p = "medium" ∨ riskOf p = "low")
    ∧ ((parseFloatJS p.score = none ∧ parseFloatJS p.probability = none
        ∧ parseFloatJS p.risk_score = none) → riskOf p = "low") := by
  have hlow : ∀ q : ℚ, ¬(7 : ℚ) / 10 < q → ¬(4 : ℚ) / 10 < q → q ≤ 4 / 10 :=
    fun q _ h4 => le_of_not_lt h4
  cases hs : scoreOf p with
  | none =>
    refine ⟨?_, ?_, ?_, ?_, fun _ => ?_⟩ <;> simp [riskOf, gtQ, hs]
  | some q =>
    by_cases h7 : (7 : ℚ) / 10 < q
    · have h4 : (4 : ℚ) / 10 < q := lt_trans (by norm_num) h7
      refine ⟨?_, ?_, ?_, ?_, fun hnone => ?_⟩
      · simp [riskOf, gtQ, hs, h7]
      · simp only [riskOf, gtQ, hs]
        rw [if_pos (by simpa using h7)]
        constructor
        · intro he
          exact absurd he (by decide)
        · rintro ⟨q', hq', _, hle⟩
          rw [Option.some_inj] at hq'
          subst hq'
          exact absurd h7 (not_lt_of_le hle)
      · simp only [riskOf, gtQ, hs]
        rw [if_pos (by simpa using h7)]
        constructor
        · intro he
          exact absurd he (by decide)
        · intro hall
          exact absurd (hall q rfl) (not_le_of_lt h4)
      · simp [riskOf, gtQ, hs, h7]
      · -- a score above 0.7 contradicts all three fields failing to parse
        exfalso
        obtain ⟨hn1, hn2, hn3⟩ := hnone
        rcases scoreOf_of_unparsable p hn1 hn2 hn3 with hz | hz <;> rw [hs] at hz
        · exact Option.noConfusion hz
        · rw [Option.some_inj] at hz
          rw [hz] at h7
          norm_num at h7
    · by_cases h4 : (4 : ℚ) / 10 < q
      · refine ⟨?_, ?_, ?_, ?_, fun hnone => ?_⟩
        · simp only [riskOf, gtQ, hs]
          rw [if_neg (by simpa using h7), if_pos (by simpa using h4)]
          constructor
          · intro he
            exact absurd he (by decide)
          · rintro ⟨q', hq', hlt⟩
            rw [Option.some_inj] at hq'
            subst hq'
            exact absurd hlt h7
        · simp only [riskOf, gtQ, hs]
          rw [if_neg (by simpa using h7), if_pos (by simpa using h4)]
          exact ⟨fun _ => ⟨q, rfl, h4, le_of_not_lt h7⟩, fun _ => rfl⟩
        · simp only [riskOf, gtQ, hs]
          rw [if_neg (by simpa using h7), if_pos (by simpa using h4)]
          constructor
          · intro he
            exact absurd he (by decide)
          · intro hall
            exact absurd (hall q rfl) (not_le_of_lt h4)
        · simp [riskOf, gtQ, hs, h7, h4]
        · exfalso
          obtain ⟨hn1, hn2, hn3⟩ := hnone
          rcases scoreOf_of_unparsable p hn1 hn2 hn3 with hz | hz <;> rw [hs] at hz
          · exact Option.noConfusion hz
          · rw [Option.some_inj] at hz
            rw [hz] at h4
            norm_num at h4
      · refine ⟨?_, ?_, ?_, ?_, fun _ => ?_⟩
        · simp only [riskOf, gtQ, hs]
          rw [if_neg (by simpa using h7), if_neg (by simpa using h4)]
          constructor
          · intro he
            exact absurd he (by decide)
          · rintro ⟨q', hq', hlt⟩
            rw [Option.some_inj] at hq'
            subst hq'
            exact absurd hlt h7
        · simp only [riskOf, gtQ, hs]
          rw [if_neg (by simpa using h7), if_neg (by simpa using h4)]
          constructor
          · intro he
            exact absurd he (by decide)
          · rintro ⟨q', hq', hlt, _⟩
            rw [Option.some_inj] at hq'
            subst hq'
            exact absurd hlt h4
        · simp only [riskOf, gtQ, hs]
          rw [if_neg (by simpa using h7), if_neg (by simpa using h4)]
          refine ⟨fun _ q' hq' => ?_, fun _ => rfl⟩
          rw [Option.some_inj] at hq'
          subst hq'
          exact le_of_not_lt h4
        · simp [riskOf, gtQ, hs, h7, h4]
        · simp only [riskOf, gtQ, hs]
          rw [if_neg (by simpa using h7), if_neg (by simpa using h4)]

lemma singleFetchUnder_v1 (base tail method : String) (body : Option ReqBody) :
    SingleFetchUnder base
      { prims := [Prim.fetchP (apiV1 base ++ tail) method body], post := fun j => j } :=
  ⟨⟨apiV1 base ++ tail, method, body, rfl,
    ⟨"/api/v1" ++ tail, String.append_assoc base "/api/v1" tail⟩⟩, rfl⟩

/-- C4: every exported request function of the API client performs exactly
one fetch, to its fixed path under the configured API base URL, and returns
the response body parsed as JSON with no transformation; the only non-fetch
networking primitive in the client is the `EventSource` opened by
`subscribeToSession`, also on a URL under the base. -/
theorem api_client_single_fetch (base sid stepId cid eid dom industry file : String)
    (limit : ℕ) (cp : CreateSessionPayload) (pj wj : J) :
    SingleFetchUnder base (getDemoToken base)
    ∧ SingleFetchUnder base (createSession base cp)
    ∧ SingleFetchUnder base (getSession base sid)
    ∧ SingleFetchUnder base (getSessionMessages base sid)
    ∧ SingleFetchUnder base (getSessionArtifacts base sid)
    ∧ SingleFetchUnder base (approveCheckpoint base sid stepId)
    ∧ SingleFetchUnder base (listConnectors base)
    ∧ SingleFetchUnder base (createConnector base pj)
    ∧ SingleFetchUnder base (testConnector base cid)
    ∧ SingleFetchUnder base (syncConnector base cid)
    ∧ SingleFetchUnder base (getConnectorCatalog base)
    ∧ SingleFetchUnder base (uploadCSV base file)
    ∧ SingleFetchUnder base (getConnectorSample base cid limit)
    ∧ SingleFetchUnder base (listEntities base)
    ∧ SingleFetchUnder base (listRelationships base)
    ∧ SingleFetchUnder base (discoverOntology base cid industry)
    ∧ SingleFetchUnder base (certifyEntity base eid)
    ∧ SingleFetchUnder base (listMetrics base)
    ∧ SingleFetchUnder base (installDomainPack base dom)
    ∧ SingleFetchUnder base (listModels base)
    ∧ SingleFetchUnder base (listWorkflows base)
    ∧ SingleFetchUnder base (listTemplates base)
    ∧ SingleFetchUnder base (createWorkflow base wj)
    ∧ SingleFetchUnder base (getAuditLog base)
    ∧ SingleFetchUnder base (listPolicies base)
    ∧ SingleFetchUnder base (healthCheck base)
    ∧ (∃ url, subscribeToSession base sid = [Prim.eventSourceP url]
        ∧ ∃ rest, url = base ++ rest) :=
  ⟨singleFetchUnder_v1 base _ _ _, singleFetchUnder_v1 base _ _ _,
   singleFetchUnder_v1 base _ _ _, singleFetchUnder_v1 base _ _ _,
   singleFetchUnder_v1 base _ _ _, singleFetchUnder_v1 base _ _ _,
   singleFetchUnder_v1 base _ _ _, singleFetchUnder_v1 base _ _ _,
   singleFetchUnder_v1 base _ _ _, singleFetchUnder_v1 base _ _ _,
   singleFetchUnder_v1 base _ _ _, singleFetchUnder_v1 base _ _ _,
   singleFetchUnder_v1 base _ _ _, singleFetchUnder_v1 base _ _ _,
   singleFetchUnder_v1 base _ _ _, singleFetchUnder_v1 base _ _ _,
   singleFetchUnder_v1 base _ _ _, singleFetchUnder_v1 base _ _ _,
   singleFetchUnder_v1 base _ _ _, singleFetchUnder_v1 base _ _ _,
   singleFetchUnder_v1 base _ _ _, singleFetchUnder_v1 base _ _ _,
   singleFetchUnder_v1 base _ _ _, singleFetchUnder_v1 base _ _ _,
   singleFetchUnder_v1 base _ _ _,
   ⟨⟨base ++ "/health", "GET", none, rfl, ⟨"/health", rfl⟩⟩, rfl⟩,
   ⟨apiV1 base ++ ("/sessions/" ++ sid ++ "/stream"), rfl,
    ⟨"/api/v1" ++ ("/sessions/" ++ sid ++ "/stream"),
     String.append_assoc base "/api/v1" ("/sessions/" ++ sid ++ "/stream")⟩⟩⟩

/-- C5: for every delivered stream message the `onEvent` callback is invoked
exactly once — with the JSON-parsed data when parsing succeeds and with
`{raw: data}` when it fails — no parse failure escapes the handler, and a
stream error closes the `EventSource`. -/
theorem sse_dispatch_exactly_once (parse : String → Except String J) (data : String) :
    (∃ calls, subscribeOnMessage parse data = Except.ok calls ∧ calls.length = 1)
    ∧ (∀ j, parse data = Except.ok j → subscribeOnMessage parse data = Except.ok [j])
    ∧ (∀ msg, parse data = Except.error msg →
        subscribeOnMessage parse data = Except.ok [J.jobj [("raw", J.jstr data)]])
    ∧ (∀ es, (subscribeOnError es).closed = true) := by
  refine ⟨?_, ?_, ?_, fun es => rfl⟩
  · cases h : parse data with
    | ok j => exact ⟨[j], by simp [subscribeOnMessage, h]⟩
    | error msg => exact ⟨[J.jobj [("raw", J.jstr data)]], by simp [subscribeOnMessage, h]⟩
  · intro j h
    simp [subscribeOnMessage, h]
  · intro msg h
    simp [subscribeOnMessage, h]

/-- Witness for C5 at a failing parse function and the payload `"}{"`. -/
theorem sse_dispatch_exactly_once_witness :
    (∃ calls, subscribeOnMessage (fun _ => Except.error "SyntaxError") "x" = Except.ok calls
        ∧ calls.length = 1)
    ∧ (∀ j, (fun _ => (Except.error "SyntaxError" : Except String J)) "x" = Except.ok j →
        subscribeOnMessage (fun _ => Except.error "SyntaxError") "x" = Except.ok [j])
    ∧ (∀ msg, (fun _ => (Except.error "SyntaxError" : Except String J)) "x" = Except.error msg →
        subscribeOnMessage (fun _ => Except.error "SyntaxError") "x"
          = Except.ok [J.jobj [("raw", J.jstr "x")]])
    ∧ (∀ es, (subscribeOnError es).closed = true) :=
  sse_dispatch_exactly_once (fun _ => Except.error "SyntaxError") "x"

/-- Witness for C9's classification at a row scoring 0.9. -/
theorem risk_label_classification_witness :
    (riskOf { score := JSVal.vnum (9 / 10), probability := JSVal.undef,
              risk_score := JSVal.undef } = "high"
      ↔ ∃ q, scoreOf { score := JSVal.vnum (9 / 10), probability := JSVal.undef,
                       risk_score := JSVal.undef } = some q ∧ (7 : ℚ) / 10 < q)
    ∧ (riskOf { score := JSVal.vnum (9 / 10), probability := JSVal.undef,
                risk_score := JSVal.undef } = "medium"
      ↔ ∃ q, scoreOf { score := JSVal.vnum (9 / 10), probability := JSVal.undef,
                       risk_score := JSVal.undef } = some q ∧ (4 : ℚ) / 10 < q ∧ q ≤ 7 / 10)
    ∧ (riskOf { score := JSVal.vnum (9 / 10), probability := JSVal.undef,
                risk_score := JSVal.undef } = "low"
      ↔ ∀ q, scoreOf { score := JSVal.vnum (9 / 10), probability := JSVal.undef,
                       risk_score := JSVal.undef } = some q → q ≤ 4 / 10)
    ∧ (riskOf { score := JSVal.vnum (9 / 10), probability := JSVal.undef,
                risk_score := JSVal.undef } = "high"
      ∨ riskOf { score := JSVal.vnum (9 / 10), probability := JSVal.undef,
                 risk_score := JSVal.undef } = "medium"
      ∨ riskOf { score := JSVal.vnum (9 / 10), probability := JSVal.undef,
                 risk_score := JSVal.undef } = "low")
    ∧ ((parseFloatJS (JSVal.vnum (9 / 10)) = none ∧ parseFloatJS JSVal.undef = none
        ∧ parseFloatJS JSVal.undef = none) →
      riskOf { score := JSVal.vnum (9 / 10), probability := JSVal.undef,
               risk_score := JSVal.undef } = "low") :=
  risk_label_classification
    { score := JSVal.vnum (9 / 10), probability := JSVal.undef, risk_score := JSVal.undef }

end VDS
